import Mathlib

/-!
Verification development for `pygluu-containerlib` persistence helpers
(`pygluu/containerlib/persistence/couchbase.py` and
`pygluu/containerlib/persistence/sql.py`), shallowly embedded in Lean.

Pure functions of the Python source are translated into Lean functions;
HTTP probes and database executions are abstracted as explicit parameters
(an outcome per host, an outcome per statement), and exceptions become
`Except` values.
-/

/-! ## Couchbase host failover resolver (`couchbase.py`, `BaseClient`) -/

/-- Outcome of one healthcheck probe against a host:
the response reported success (`resp.ok`), the response reported failure
(logged, iteration continues), or the request raised a transport-level
exception (logged, iteration continues). -/
inductive ProbeResult where
  | ok
  | failed
  | exn
deriving DecidableEq, Repr

/-- Python `str.split(",")` on the underlying character list: splitting on
every comma, keeping empty pieces (`"".split(",") == [""]`). -/
def splitCommaChars : List Char → List (List Char)
  | [] => [[]]
  | c :: cs =>
    let r := splitCommaChars cs
    if c = ',' then [] :: r
    else
      match r with
      | [] => [[c]]
      | w :: ws => (c :: w) :: ws

/-- Python `str.strip()` on a character list: drop whitespace from both ends. -/
def stripChars (cs : List Char) : List Char :=
  ((cs.dropWhile Char.isWhitespace).reverse.dropWhile Char.isWhitespace).reverse

/-- Python `str.split(",")` producing strings. -/
def pySplitComma (s : String) : List String :=
  (splitCommaChars s.data).map (fun cs => String.mk cs)

/-- Python `str.strip()` producing a string. -/
def pyStrip (s : String) : String :=
  String.mk (stripChars s.data)

/-- Host-list parsing used by `BaseClient.resolve_host`:
`filter(None, map(lambda host: host.strip(), self._hosts.split(",")))` —
split on commas, trim whitespace from every entry, discard empty entries. -/
def parseHosts (hosts : String) : List String :=
  ((pySplitComma hosts).map pyStrip).filter (fun h => h ≠ "")

/-- The probing loop of `BaseClient.resolve_host`, instrumented with the list
of hosts actually probed.  `self.host` starts as `""`; the loop sets it to the
first host whose probe reports success and breaks; failed or raising probes
log a warning and continue.  Returns `(resolved host, probed hosts in order)`. -/
def resolveHostGo (probe : String → ProbeResult) : List String → String × List String
  | [] => ("", [])
  | h :: t =>
    match probe h with
    | .ok => (h, [h])
    | _ =>
      let r := resolveHostGo probe t
      (r.1, h :: r.2)

/-- `BaseClient.resolve_host` on the raw comma-separated host string. -/
def resolve_host (probe : String → ProbeResult) (hosts : String) : String × List String :=
  resolveHostGo probe (parseHosts hosts)

/-! ## Couchbase client facade (`couchbase.py`, `CouchbaseClient`) -/

/-- State of a `BaseClient` (`RestClient` / `N1qlClient`) after construction
and one `resolve_host` call. -/
structure CBClientState where
  hosts : String
  user : String
  password : String
  host : String
deriving DecidableEq, Repr

/-- Construct a service client and run `resolve_host` once, as the facade
properties do. -/
def mkResolvedClient (probe : String → ProbeResult) (hosts user password : String) :
    CBClientState :=
  { hosts := hosts, user := user, password := password
    host := (resolve_host probe hosts).1 }

/-- `CouchbaseClient.rest_client`: build the client, resolve the host, and
raise `ValueError` naming the host list and the data service when the
resolved host is still empty. -/
def rest_client (probe : String → ProbeResult) (hosts user password : String) :
    Except String CBClientState :=
  let client := mkResolvedClient probe hosts user password
  if client.host = "" then
    .error ("Unable to resolve host for data service from " ++ hosts ++ " list")
  else
    .ok client

/-- `CouchbaseClient.n1ql_client`: same shape as `rest_client`, naming the
query service on failure. -/
def n1ql_client (probe : String → ProbeResult) (hosts user password : String) :
    Except String CBClientState :=
  let client := mkResolvedClient probe hosts user password
  if client.host = "" then
    .error ("Unable to resolve host for query service from " ++ hosts ++ " list")
  else
    .ok client

/-! Helper lemmas about the resolver loop. -/

lemma resolveHostGo_no_ok (probe : String → ProbeResult) (l : List String)
    (h : ∀ x ∈ l, probe x ≠ .ok) : resolveHostGo probe l = ("", l) := by
  induction l with
  | nil => rfl
  | cons a t ih =>
    have ha : probe a ≠ .ok := h a (List.mem_cons_self a t)
    have ht : ∀ x ∈ t, probe x ≠ .ok := fun x hx => h x (List.mem_cons_of_mem a hx)
    cases hpa : probe a with
    | ok => exact absurd hpa ha
    | failed => simp [resolveHostGo, hpa, ih ht]
    | exn => simp [resolveHostGo, hpa, ih ht]

lemma resolveHostGo_first_ok (probe : String → ProbeResult) (l : List String) (n : Nat)
    (hn : n < l.length) (hok : probe (l.getD n "") = .ok)
    (hbefore : ∀ x ∈ l.take n, probe x ≠ .ok) :
    resolveHostGo probe l = (l.getD n "", l.take (n + 1)) := by
  induction l generalizing n with
  | nil => simp at hn
  | cons a t ih =>
    cases n with
    | zero =>
      simp only [List.getD_cons_zero] at hok ⊢
      simp [resolveHostGo, hok]
    | succ m =>
      have ha : probe a ≠ .ok := by
        apply hbefore
        simp [List.take]
      have hm : m < t.length := by simpa using hn
      have hokm : probe (t.getD m "") = .ok := by simpa using hok
      have hbm : ∀ x ∈ t.take m, probe x ≠ .ok := by
        intro x hx
        exact hbefore x (by simp [List.take, hx])
      cases hpa : probe a with
      | ok => exact absurd hpa ha
      | failed => simp [resolveHostGo, hpa, ih m hm hokm hbm, List.take]
      | exn => simp [resolveHostGo, hpa, ih m hm hokm hbm, List.take]

/-- C1: on a comma-separated host list (entries trimmed, empty entries
discarded), `resolve_host` probes hosts strictly in source order; the first
host whose probe reports success becomes the resolved host and iteration
stops there (the probed hosts are exactly the list prefix up to and
including the winner); probes that raise or report failure continue to the
next host. -/
theorem resolve_host_first_success (probe : String → ProbeResult) (s : String) (n : Nat)
    (hn : n < (parseHosts s).length)
    (hok : probe ((parseHosts s).getD n "") = .ok)
    (hbefore : ∀ x ∈ (parseHosts s).take n, probe x ≠ .ok) :
    resolve_host probe s = ((parseHosts s).getD n "", (parseHosts s).take (n + 1)) :=
  resolveHostGo_first_ok probe (parseHosts s) n hn hok hbefore

/-- Witness for C1: in the list `" a , ,b, c"` (parsing to `["a", "b", "c"]`),
host `"a"` fails and `"b"` succeeds, so `"b"` is resolved and `"c"` is never
probed. -/
theorem resolve_host_first_success_witness :
    resolve_host (fun h => if h = "b" then .ok else .failed) " a , ,b, c" = ("b", ["a", "b"]) := by
  have h := resolve_host_first_success (fun h => if h = "b" then .ok else .failed)
    " a , ,b, c" 1 (by decide) (by decide) (by decide)
  exact h.trans (by decide)

/-- C2: when no host in the list passes the healthcheck, the first access to
the facade's `rest_client` (resp. `n1ql_client`) raises an error naming the
host list and the service, and the client's resolved host remains the empty
sentinel; no fallback host is substituted. -/
theorem unresolved_host_raises (probeR probeQ : String → ProbeResult)
    (hosts user password : String)
    (hR : ∀ x ∈ parseHosts hosts, probeR x ≠ .ok)
    (hQ : ∀ x ∈ parseHosts hosts, probeQ x ≠ .ok) :
    rest_client probeR hosts user password =
        .error ("Unable to resolve host for data service from " ++ hosts ++ " list")
      ∧ n1ql_client probeQ hosts user password =
        .error ("Unable to resolve host for query service from " ++ hosts ++ " list")
      ∧ (mkResolvedClient probeR hosts user password).host = ""
      ∧ (mkResolvedClient probeQ hosts user password).host = "" := by
  have hr : (mkResolvedClient probeR hosts user password).host = "" := by
    simp [mkResolvedClient, resolve_host, resolveHostGo_no_ok probeR _ hR]
  have hq : (mkResolvedClient probeQ hosts user password).host = "" := by
    simp [mkResolvedClient, resolve_host, resolveHostGo_no_ok probeQ _ hQ]
  refine ⟨?_, ?_, hr, hq⟩
  · simp [rest_client, hr]
  · simp [n1ql_client, hq]

/-- Witness for C2: both probes fail on every host of `"a,b"`; both facade
properties raise and both resolved hosts stay empty. -/
theorem unresolved_host_raises_witness :
    rest_client (fun _ => .exn) "a,b" "admin" "secret" =
        .error "Unable to resolve host for data service from a,b list"
      ∧ n1ql_client (fun _ => .failed) "a,b" "admin" "secret" =
        .error "Unable to resolve host for query service from a,b list"
      ∧ (mkResolvedClient (fun _ => .exn) "a,b" "admin" "secret").host = ""
      ∧ (mkResolvedClient (fun _ => .failed) "a,b" "admin" "secret").host = "" := by
  have h := unresolved_host_raises (fun _ => .exn) (fun _ => .failed) "a,b" "admin" "secret"
    (by decide) (by decide)
  exact h

/-! ## N1QL request body (`couchbase.py`, `build_n1ql_request_body`) -/

/-- JSON values as passed to `json.dumps` for query parameters. -/
inductive JValue where
  | num (n : Int)
  | str (s : String)
  | boolean (b : Bool)
  | arr (xs : List JValue)
  | obj (fields : List (String × JValue))

mutual

/-- Model of `json.dumps` on a parameter value (compact Python default
formatting, `", "` item separator and `": "` key separator; string escaping
is not modelled — parameter strings are taken escape-free). -/
def jdump : JValue → String
  | .num n => toString n
  | .str s => "\"" ++ s ++ "\""
  | .boolean b => if b then "true" else "false"
  | .arr xs => "[" ++ String.intercalate ", " (jdumpList xs) ++ "]"
  | .obj fs => "\x7b" ++ String.intercalate ", " (jdumpFields fs) ++ "\x7d"

def jdumpList : List JValue → List String
  | [] => []
  | x :: xs => jdump x :: jdumpList xs

def jdumpFields : List (String × JValue) → List String
  | [] => []
  | (k, v) :: fs => ("\"" ++ k ++ "\": " ++ jdump v) :: jdumpFields fs

end

/-- `build_n1ql_request_body(query, *args, **kwargs)`: a dict (modelled as an
insertion-ordered association list) holding `statement`; an `args` key with
the positional parameters dumped as one JSON array, only when there are any;
and one `$`-prefixed key per named parameter, its value JSON-encoded
individually. -/
def build_n1ql_request_body (query : String) (args : List JValue)
    (kwargs : List (String × JValue)) : List (String × String) :=
  [("statement", query)]
    ++ (if args.isEmpty then [] else [("args", jdump (.arr args))])
    ++ kwargs.map (fun kv => ("$" ++ kv.1, jdump kv.2))

/-- C3: with no positional or named arguments the body is exactly
`{"statement": query}` (no `args` key, no `$`-prefixed key); positional
arguments are serialized as one JSON array under `args`; each named argument
is serialized individually under its `$`-prefixed key; and
`build_n1ql_request_body("SELECT $x", x=5)` is exactly
`{"statement": "SELECT $x", "$x": "5"}` — `"$x"` bound to `"5"` and no
`args` key. -/
theorem build_n1ql_request_body_spec :
    (∀ q : String, build_n1ql_request_body q [] [] = [("statement", q)])
  ∧ (∀ (q : String) (args : List JValue) (kwargs : List (String × JValue)),
      args ≠ [] → ("args", jdump (.arr args)) ∈ build_n1ql_request_body q args kwargs)
  ∧ (∀ (q : String) (args : List JValue) (kwargs : List (String × JValue))
      (k : String) (v : JValue),
      (k, v) ∈ kwargs → ("$" ++ k, jdump v) ∈ build_n1ql_request_body q args kwargs)
  ∧ build_n1ql_request_body "SELECT $x" [] [("x", JValue.num 5)]
      = [("statement", "SELECT $x"), ("$x", "5")] := by
  refine ⟨fun q => rfl, ?_, ?_, rfl⟩
  · intro q args kwargs hargs
    have hne : args.isEmpty = false := by
      cases args with
      | nil => exact absurd rfl hargs
      | cons a t => rfl
    simp [build_n1ql_request_body, hne]
  · intro q args kwargs k v hkv
    have : ("$" ++ k, jdump v) ∈ kwargs.map (fun kv => ("$" ++ kv.1, jdump kv.2)) :=
      List.mem_map_of_mem _ hkv
    simp [build_n1ql_request_body]
    right
    right
    simpa using this

/-- Witness for C3: instantiating the quantified parts at concrete inputs. -/
theorem build_n1ql_request_body_spec_witness :
    build_n1ql_request_body "SELECT 1" [] [] = [("statement", "SELECT 1")]
  ∧ ("args", jdump (.arr [JValue.num 1, JValue.num 2]))
      ∈ build_n1ql_request_body "q" [JValue.num 1, JValue.num 2] []
  ∧ ("$y", jdump (JValue.str "a")) ∈ build_n1ql_request_body "q" [] [("y", JValue.str "a")] :=
  ⟨build_n1ql_request_body_spec.1 "SELECT 1",
   build_n1ql_request_body_spec.2.1 "q" [JValue.num 1, JValue.num 2] [] (by simp),
   build_n1ql_request_body_spec.2.2.1 "q" [] [("y", JValue.str "a")] "y" (JValue.str "a")
     (by simp)⟩

/-! ## SQL dialect adapters (`sql.py`) -/

/-- A psycopg2 database error as seen by the handlers: `exc.orig.pgcode`. -/
structure PGError where
  pgcode : String
deriving DecidableEq, Repr

/-- A pymysql database error as seen by the handlers: `exc.orig.args[0]`. -/
structure MySQLError where
  code : Nat
deriving DecidableEq, Repr

/-- `PostgresqlAdapter.on_create_table_error`: swallow 42P07 (relation
exists), re-raise the same exception otherwise. -/
def pg_on_create_table_error (exc : PGError) : Except PGError Unit :=
  if exc.pgcode ∈ ["42P07"] then .ok () else .error exc

/-- `PostgresqlAdapter.on_create_index_error`: swallow 42P07, re-raise
otherwise. -/
def pg_on_create_index_error (exc : PGError) : Except PGError Unit :=
  if exc.pgcode ∈ ["42P07"] then .ok () else .error exc

/-- `PostgresqlAdapter.on_insert_into_error`: swallow 23505 (unique
violation), re-raise otherwise. -/
def pg_on_insert_into_error (exc : PGError) : Except PGError Unit :=
  if exc.pgcode ∈ ["23505"] then .ok () else .error exc

/-- `MysqlAdapter.on_create_table_error`: swallow 1050 (table exists),
re-raise otherwise. -/
def mysql_on_create_table_error (exc : MySQLError) : Except MySQLError Unit :=
  if exc.code ∈ [1050] then .ok () else .error exc

/-- `MysqlAdapter.on_create_index_error`: swallow 1061 (duplicate key name),
re-raise otherwise. -/
def mysql_on_create_index_error (exc : MySQLError) : Except MySQLError Unit :=
  if exc.code ∈ [1061] then .ok () else .error exc

/-- `MysqlAdapter.on_insert_into_error`: swallow 1062 (duplicate entry),
re-raise otherwise. -/
def mysql_on_insert_into_error (exc : MySQLError) : Except MySQLError Unit :=
  if exc.code ∈ [1062] then .ok () else .error exc

/-- The `try`/`except` shape shared by `SQLClient.create_index` and
`SQLClient.insert_into` (and the error path of `create_table`): a successful
statement returns normally; a raising statement hands the exception to the
adapter's handler, whose swallow/re-raise decision is the call's outcome. -/
def run_with_handler {ε : Type} (handler : ε → Except ε Unit)
    (outcome : Except ε Unit) : Except ε Unit :=
  match outcome with
  | .ok () => .ok ()
  | .error e => handler e

/-- C4: a database error raised during `create_table`, `create_index` or
`insert_into` is swallowed (the call returns normally) exactly when its
engine-native code is on the dialect's allow-list — PostgreSQL 42P07 for
table/index creation and 23505 for insert, MySQL 1050 / 1061 / 1062
respectively — and any error with another code is re-raised unmodified. -/
theorem sql_error_allowlist :
    (∀ e : PGError, run_with_handler pg_on_create_table_error (.error e)
        = if e.pgcode = "42P07" then .ok () else .error e)
  ∧ (∀ e : PGError, run_with_handler pg_on_create_index_error (.error e)
        = if e.pgcode = "42P07" then .ok () else .error e)
  ∧ (∀ e : PGError, run_with_handler pg_on_insert_into_error (.error e)
        = if e.pgcode = "23505" then .ok () else .error e)
  ∧ (∀ e : MySQLError, run_with_handler mysql_on_create_table_error (.error e)
        = if e.code = 1050 then .ok () else .error e)
  ∧ (∀ e : MySQLError, run_with_handler mysql_on_create_index_error (.error e)
        = if e.code = 1061 then .ok () else .error e)
  ∧ (∀ e : MySQLError, run_with_handler mysql_on_insert_into_error (.error e)
        = if e.code = 1062 then .ok () else .error e) := by
  refine ⟨fun e => ?_, fun e => ?_, fun e => ?_, fun e => ?_, fun e => ?_, fun e => ?_⟩ <;>
    simp [run_with_handler, pg_on_create_table_error, pg_on_create_index_error,
      pg_on_insert_into_error, mysql_on_create_table_error, mysql_on_create_index_error,
      mysql_on_insert_into_error]

/-! ## Adapter attribute surface and the facade's server-version lookup -/

/-- Attribute lookup on a Python object modelled as a name/value association
list: `None` models an `AttributeError`. -/
def getattrOpt (attrs : List (String × String)) (name : String) : Option String :=
  (attrs.find? (fun kv => kv.1 == name)).map (fun kv => kv.2)

/-- The string-valued properties defined on `PostgresqlAdapter` in the
source: note the version query is published under the name
`server_version`. -/
def postgresqlAdapterAttrs : List (String × String) :=
  [("dialect", "pgsql"),
   ("connector", "postgresql+psycopg2"),
   ("quote_char", "\""),
   ("server_version", "SHOW server_version")]

/-- The string-valued properties defined on `MysqlAdapter` in the source:
the version query is published under the name `server_version_query`. -/
def mysqlAdapterAttrs : List (String × String) :=
  [("dialect", "mysql"),
   ("connector", "mysql+pymysql"),
   ("quote_char", "`"),
   ("server_version_query", "SELECT VERSION()")]

/-- `SQLClient.server_version` reads `self.adapter.server_version_query`
before handing it to `engine.scalar`; this is that attribute access. -/
def sqlclient_server_version_attr (attrs : List (String × String)) : Option String :=
  getattrOpt attrs "server_version_query"

/-- C5 (code evaluation at the failing input): the attribute the facade
reads, `server_version_query`, resolves to the version query on the MySQL
adapter but does not exist on the PostgreSQL adapter — there the query is
published under the name `server_version`, so `SQLClient.server_version`
raises `AttributeError` under the pgsql dialect. -/
theorem server_version_query_missing_on_pg :
    sqlclient_server_version_attr mysqlAdapterAttrs = some "SELECT VERSION()"
  ∧ sqlclient_server_version_attr postgresqlAdapterAttrs = none
  ∧ getattrOpt postgresqlAdapterAttrs "server_version" = some "SHOW server_version" := by
  refine ⟨rfl, rfl, rfl⟩

/-! ## Couchbase bucket mappings (`couchbase.py`) -/

/-- One entry of the bucket mapping dict: logical name, namespaced bucket
identifier, and the logical sub-mapping label. -/
structure CBBucketMapping where
  name : String
  bucket : String
  mapping : String
deriving DecidableEq, Repr

/-- `prefixed_couchbase_mappings()` with the bucket name prefix
(`GLUU_COUCHBASE_BUCKET_PREFIX`, default `"gluu"`) passed explicitly; the
list preserves the Python dict's insertion order. -/
def prefixed_couchbase_mappings (pfx : String) : List CBBucketMapping :=
  [⟨"default", pfx, ""⟩,
   ⟨"user", pfx ++ "_user", "people, groups, authorizations"⟩,
   ⟨"cache", pfx ++ "_cache", "cache"⟩,
   ⟨"site", pfx ++ "_site", "cache-refresh"⟩,
   ⟨"token", pfx ++ "_token", "tokens"⟩,
   ⟨"session", pfx ++ "_session", "sessions"⟩]

/-- `get_couchbase_mappings(persistence_type, ldap_mapping)`: for `hybrid`
persistence the entry whose logical name equals `ldap_mapping` is dropped;
any other persistence type keeps the full mapping. -/
def get_couchbase_mappings (pfx persistence_type ldap_mapping : String) :
    List CBBucketMapping :=
  if persistence_type = "hybrid" then
    (prefixed_couchbase_mappings pfx).filter (fun m => m.name != ldap_mapping)
  else
    prefixed_couchbase_mappings pfx

/-- The bucket-list computation of `render_couchbase_properties`: collect the
bucket identifiers in mapping order, then insert the prefix at position 0
when it is not already present. -/
def render_bucket_list (pfx persistence_type ldap_mapping : String) : List String :=
  let buckets := (get_couchbase_mappings pfx persistence_type ldap_mapping).map
    CBBucketMapping.bucket
  if pfx ∈ buckets then buckets else pfx :: buckets

lemma string_self_ne_append (p s : String) (h : s ≠ "") : p ≠ p ++ s := by
  intro he
  apply h
  have hd := congrArg String.data he
  rw [String.data_append] at hd
  have : s.data = [] := by
    have := List.self_eq_append_right.mp hd
    exact this
  cases s with
  | mk data => simp at this; simp [this]

/-- C6 counterexample: with persistence type `"hybrid"` and ldap_mapping
`"default"`, the bucket mapping returned by `get_couchbase_mappings` has no
`"default"` entry — the claimed invariant fails as stated. -/
theorem default_bucket_missing_for_hybrid_default :
    "default" ∉ (get_couchbase_mappings "gluu" "hybrid" "default").map
      CBBucketMapping.name := by
  decide

/-- C6 amended: for every prefix, persistence type and ldap_mapping, the
rendered bucket list starts with the computed prefix (it is inserted at
position 0 exactly when not already present), and the bucket mapping
contains the `"default"` entry unless persistence type is `"hybrid"` with
ldap_mapping `"default"`. -/
theorem bucket_list_starts_with_prefix (pfx persistence_type ldap_mapping : String) :
    (render_bucket_list pfx persistence_type ldap_mapping).head? = some pfx
  ∧ ("default" ∈ (get_couchbase_mappings pfx persistence_type ldap_mapping).map
        CBBucketMapping.name
      ↔ ¬ (persistence_type = "hybrid" ∧ ldap_mapping = "default")) := by
  by_cases hpt : persistence_type = "hybrid"
  · subst hpt
    by_cases hlm : ldap_mapping = "default"
    · subst hlm
      have hget : get_couchbase_mappings pfx "hybrid" "default" =
          [⟨"user", pfx ++ "_user", "people, groups, authorizations"⟩,
           ⟨"cache", pfx ++ "_cache", "cache"⟩,
           ⟨"site", pfx ++ "_site", "cache-refresh"⟩,
           ⟨"token", pfx ++ "_token", "tokens"⟩,
           ⟨"session", pfx ++ "_session", "sessions"⟩] := rfl
      have hmem : pfx ∉ [pfx ++ "_user", pfx ++ "_cache", pfx ++ "_site",
          pfx ++ "_token", pfx ++ "_session"] := by
        simp only [List.mem_cons, List.not_mem_nil, or_false, not_or]
        exact ⟨string_self_ne_append pfx "_user" (by decide),
          string_self_ne_append pfx "_cache" (by decide),
          string_self_ne_append pfx "_site" (by decide),
          string_self_ne_append pfx "_token" (by decide),
          string_self_ne_append pfx "_session" (by decide)⟩
      constructor
      · rw [render_bucket_list, hget]
        simp only [List.map_cons, List.map_nil]
        rw [if_neg hmem]
        rfl
      · rw [hget]
        simp
    · have hd : (("default" : String) != ldap_mapping) = true := by
        simp only [bne_iff_ne, ne_eq]
        exact fun he => hlm he.symm
      have hget : get_couchbase_mappings pfx "hybrid" ldap_mapping =
          ⟨"default", pfx, ""⟩ ::
            ([⟨"user", pfx ++ "_user", "people, groups, authorizations"⟩,
              ⟨"cache", pfx ++ "_cache", "cache"⟩,
              ⟨"site", pfx ++ "_site", "cache-refresh"⟩,
              ⟨"token", pfx ++ "_token", "tokens"⟩,
              ⟨"session", pfx ++ "_session", "sessions"⟩].filter
                (fun m => m.name != ldap_mapping)) := by
        rw [get_couchbase_mappings, if_pos rfl, prefixed_couchbase_mappings]
        exact List.filter_cons_of_pos hd
      constructor
      · rw [render_bucket_list, hget]
        simp only [List.map_cons]
        rw [if_pos (List.mem_cons_self _ _)]
        rfl
      · rw [hget]
        simp [hlm]
  · constructor
    · rw [render_bucket_list, get_couchbase_mappings, if_neg hpt,
        prefixed_couchbase_mappings]
      simp only [List.map_cons, List.map_nil]
      rw [if_pos (List.mem_cons_self _ _)]
      rfl
    · rw [get_couchbase_mappings, if_neg hpt, prefixed_couchbase_mappings]
      simp [hpt]

/-! ## `SQLClient.insert_into` JSON-column defaults (`sql.py`) -/

/-- A reflected column: its name and the class name of its SQLAlchemy type
(`column.type.__class__.__name__`). -/
structure SQLColumn where
  name : String
  ctype : String
deriving DecidableEq, Repr

/-- Python `str.lower()` on the character list. -/
def pyLower (s : String) : String :=
  String.mk (s.data.map Char.toLower)

/-- Python `column.name not in column_mapping` test (negated): key presence
in the insertion-ordered payload dict. -/
def hasKey (m : List (String × JValue)) (k : String) : Bool :=
  m.any (fun kv => kv.1 == k)

/-- The JSON type-class name checked per dialect: `"json"` for MySQL,
`"jsonb"` otherwise (PostgreSQL). -/
def json_type_for (dialect : String) : String :=
  if dialect == "mysql" then "json" else "jsonb"

/-- The engine-appropriate empty JSON default: `{"v": []}` for MySQL, `[]`
otherwise (PostgreSQL). -/
def json_default_for (dialect : String) : JValue :=
  if dialect == "mysql" then .obj [("v", .arr [])] else .arr []

/-- `bool(column.type.__class__.__name__.lower() == json_type)`. -/
def is_json_col (dialect : String) (c : SQLColumn) : Bool :=
  pyLower c.ctype == json_type_for dialect

/-- The payload-filling loop of `SQLClient.insert_into`: for each reflected
column, when it is absent from the (evolving) payload and is JSON-typed for
the dialect, append the engine default; otherwise leave the payload alone. -/
def insert_into_fill (dialect : String) (cols : List SQLColumn)
    (payload : List (String × JValue)) : List (String × JValue) :=
  cols.foldl
    (fun acc c =>
      if (!(hasKey acc c.name)) && is_json_col dialect c then
        acc ++ [(c.name, json_default_for dialect)]
      else acc)
    payload

lemma hasKey_append_single (payload : List (String × JValue)) (k : String) (v : JValue)
    (x : String) :
    hasKey (payload ++ [(k, v)]) x = (hasKey payload x || (k == x)) := by
  simp [hasKey, List.any_append]

/-- C7: for every dialect, reflected column list (with distinct column
names) and caller payload, `insert_into` issues its statement with the
payload extended by exactly the JSON-typed columns that were absent (each
bound to the engine-appropriate empty JSON default, `{"v": []}` for MySQL
and `[]` for PostgreSQL), in column order; columns already present and
non-JSON columns are left unchanged. -/
theorem insert_into_json_defaults (dialect : String) (cols : List SQLColumn)
    (payload : List (String × JValue))
    (hnd : (cols.map SQLColumn.name).Nodup) :
    insert_into_fill dialect cols payload =
      payload ++
        (cols.filter (fun c => (!(hasKey payload c.name)) && is_json_col dialect c)).map
          (fun c => (c.name, json_default_for dialect)) := by
  induction cols generalizing payload with
  | nil => simp [insert_into_fill]
  | cons c cs ih =>
    rw [List.map_cons, List.nodup_cons] at hnd
    obtain ⟨hc, hcs⟩ := hnd
    have hstep : insert_into_fill dialect (c :: cs) payload =
        insert_into_fill dialect cs
          (if (!(hasKey payload c.name)) && is_json_col dialect c then
            payload ++ [(c.name, json_default_for dialect)]
          else payload) := by
      rw [insert_into_fill, List.foldl_cons]
      rfl
    cases hcond : (!(hasKey payload c.name)) && is_json_col dialect c with
    | true =>
      rw [hstep, hcond, if_pos rfl, ih _ hcs]
      have hfilter :
          cs.filter (fun x =>
              (!(hasKey (payload ++ [(c.name, json_default_for dialect)]) x.name))
                && is_json_col dialect x) =
            cs.filter (fun x => (!(hasKey payload x.name)) && is_json_col dialect x) := by
        apply List.filter_congr
        intro x hx
        have hne : (c.name == x.name) = false := by
          apply beq_eq_false_iff_ne.mpr
          intro he
          exact hc (he ▸ List.mem_map_of_mem SQLColumn.name hx)
        rw [hasKey_append_single, hne, Bool.or_false]
      have hfc : List.filter (fun x => (!(hasKey payload x.name)) && is_json_col dialect x)
            (c :: cs)
          = c :: List.filter (fun x => (!(hasKey payload x.name)) && is_json_col dialect x) cs :=
        List.filter_cons_of_pos hcond
      rw [hfilter, hfc, List.map_cons, List.append_assoc]
      rfl
    | false =>
      have hfc : List.filter (fun x => (!(hasKey payload x.name)) && is_json_col dialect x)
            (c :: cs)
          = List.filter (fun x => (!(hasKey payload x.name)) && is_json_col dialect x) cs :=
        List.filter_cons_of_neg (by simp [hcond])
      rw [hstep, hcond, if_neg (by simp), ih _ hcs, hfc]

/-- Witness for C7: a MySQL table with a non-JSON `doc_id` column (present
in the payload) and a JSON `attrs` column (absent) — only `attrs` is filled,
with `{"v": []}`. -/
theorem insert_into_json_defaults_witness :
    insert_into_fill "mysql" [⟨"doc_id", "String"⟩, ⟨"attrs", "JSON"⟩]
        [("doc_id", JValue.str "x")]
      = [("doc_id", JValue.str "x"), ("attrs", JValue.obj [("v", JValue.arr [])])] := by
  rw [insert_into_json_defaults "mysql" [⟨"doc_id", "String"⟩, ⟨"attrs", "JSON"⟩]
    [("doc_id", JValue.str "x")] (by decide)]
  rfl

/-! ## `SQLClient` metadata reflection and `create_table` (`sql.py`) -/

/-- Observable state of an `SQLClient`: the tables existing in the database,
the memoized reflected metadata (`None` before first access), and how many
times a full reflect has run. -/
structure SQLClientState where
  dbTables : List String
  metadataTables : Option (List String)
  reflectCount : Nat
deriving DecidableEq, Repr

/-- The `metadata` property: on first access create the metadata object and
reflect all tables; afterwards return the memoized object untouched. -/
def metadata_get (s : SQLClientState) : List String × SQLClientState :=
  match s.metadataTables with
  | some m => (m, s)
  | none =>
    (s.dbTables, { s with metadataTables := some s.dbTables
                          reflectCount := s.reflectCount + 1 })

/-- `self.metadata.reflect()`: re-reflect the full table set from the
database into the metadata. -/
def metadata_reflect (s : SQLClientState) : SQLClientState :=
  { s with metadataTables := some s.dbTables, reflectCount := s.reflectCount + 1 }

/-- `SQLClient.create_table`, with the `CREATE TABLE` statement's outcome
abstracted (`none` = success, `some e` = the raised database error): on
success the table is created and `self.metadata.reflect()` runs; on error
the adapter handler decides between swallowing and re-raising, and the
reflect call — placed after `conn.execute` inside the `try` block — is
skipped. -/
def create_table {ε : Type} (handler : ε → Except ε Unit) (table_name : String)
    (outcome : Option ε) (s : SQLClientState) : Except ε SQLClientState :=
  match outcome with
  | none =>
    let s1 := { s with dbTables := s.dbTables ++ [table_name] }
    let m := metadata_get s1
    .ok (metadata_reflect m.2)
  | some e =>
    match handler e with
    | .ok () => .ok s
    | .error e2 => .error e2

/-- C8 counterexample: a `create_table` whose statement fails (here with the
swallowed PostgreSQL code 42P07 on a database that already has the table)
returns normally with the client state — including the stale metadata and
the reflect counter — completely unchanged: no re-reflection happens when
the table-creation statement fails, contradicting the claim as stated. -/
theorem create_table_skips_reflect_when_failing :
    create_table pg_on_create_table_error "gluuPerson" (some ⟨"42P07"⟩)
        ⟨["gluuPerson"], some [], 3⟩
      = .ok ⟨["gluuPerson"], some [], 3⟩ := rfl

/-- C8 amended: a `create_table` call whose creation statement succeeds
forces a full re-reflection (the metadata afterwards is the full new table
set and the reflect counter has advanced); when the statement fails the
adapter handler decides the outcome and the state is left unchanged (no
re-reflection); the first read of the metadata triggers exactly one full
reflect per metadata-object lifetime, and a second read returns the
memoized metadata without reflecting again. -/
theorem create_table_reflects_on_success {ε : Type} (handler : ε → Except ε Unit)
    (table_name : String) (s : SQLClientState) :
    (∃ s2, create_table handler table_name none s = .ok s2
        ∧ s2.metadataTables = some (s.dbTables ++ [table_name])
        ∧ s.reflectCount < s2.reflectCount)
  ∧ (∀ e : ε, create_table handler table_name (some e) s =
      (handler e).map (fun _ => s))
  ∧ (s.metadataTables = none →
        (metadata_get s).2.reflectCount = s.reflectCount + 1
      ∧ (metadata_get s).1 = s.dbTables
      ∧ metadata_get (metadata_get s).2 = ((metadata_get s).1, (metadata_get s).2)) := by
  refine ⟨?_, ?_, ?_⟩
  · cases hm : s.metadataTables with
    | none =>
      refine ⟨_, rfl, ?_, ?_⟩
      · simp [create_table, metadata_get, metadata_reflect, hm]
      · simp only [create_table, metadata_get, metadata_reflect, hm]
        omega
    | some m =>
      refine ⟨_, rfl, ?_, ?_⟩ <;> simp [create_table, metadata_get, metadata_reflect, hm]
  · intro e
    cases he : handler e with
    | ok u => cases u; simp [create_table, he, Except.map]
    | error e2 => simp [create_table, he, Except.map]
  · intro hm
    refine ⟨?_, ?_, ?_⟩ <;> simp [metadata_get, hm]

/-- Witness for C8's amended theorem: fresh client over an empty database —
a failing statement maps through the handler, and the first metadata read
reflects exactly once. -/
theorem create_table_reflects_on_success_witness :
    create_table pg_on_create_table_error "t" (some ⟨"99999"⟩) ⟨[], none, 0⟩
        = (pg_on_create_table_error ⟨"99999"⟩).map (fun _ => (⟨[], none, 0⟩ : SQLClientState))
      ∧ (metadata_get ⟨[], none, 0⟩).2.reflectCount = 0 + 1 :=
  ⟨(create_table_reflects_on_success pg_on_create_table_error "t" ⟨[], none, 0⟩).2.1 ⟨"99999"⟩,
   ((create_table_reflects_on_success pg_on_create_table_error "t" ⟨[], none, 0⟩).2.2 rfl).1⟩

/-! ## `SQLClient.row_exists` and its unguarded siblings (`sql.py`) -/

/-- A table row, reduced to its `doc_id` column. -/
structure SQLRow where
  doc_id : String
deriving DecidableEq, Repr

/-- `self.metadata.tables.get(table_name)`: dict lookup returning `None`
when the table was not reflected. -/
def tables_get (tables : List (String × List SQLRow)) (nm : String) :
    Option (String × List SQLRow) :=
  tables.find? (fun t => t.1 == nm)

/-- `SQLClient.row_exists(table_name, id_)`, instrumented with the number of
database queries issued: an absent table short-circuits to `False` with no
query; otherwise one `SELECT COUNT` runs and the result is `count > 0`. -/
def row_exists (tables : List (String × List SQLRow)) (nm id_ : String) : Bool × Nat :=
  match tables_get tables nm with
  | none => (false, 0)
  | some t => (decide (0 < (t.2.filter (fun r => r.doc_id == id_)).length), 1)

/-- `SQLClient.get`: no `None` guard — an absent table raises
(`table.c` on `None` is an `AttributeError`); otherwise the first row with
matching `doc_id` (or nothing). -/
def sql_get (tables : List (String × List SQLRow)) (nm id_ : String) :
    Except String (Option SQLRow) :=
  match tables_get tables nm with
  | none => .error "AttributeError"
  | some t => .ok (t.2.find? (fun r => r.doc_id == id_))

/-- `SQLClient.update`: no `None` guard either; returns whether any row
matched (`bool(result.rowcount)`). -/
def sql_update (tables : List (String × List SQLRow)) (nm id_ : String) :
    Except String Bool :=
  match tables_get tables nm with
  | none => .error "AttributeError"
  | some t => .ok (t.2.any (fun r => r.doc_id == id_))

/-- `SQLClient.search`: no `None` guard either; yields every row. -/
def sql_search (tables : List (String × List SQLRow)) (nm : String) :
    Except String (List SQLRow) :=
  match tables_get tables nm with
  | none => .error "AttributeError"
  | some t => .ok t.2

/-- C10: for a table name absent from the reflected metadata, `row_exists`
returns `False` without raising and without issuing any query, while the
sibling operations `get`, `update` and `search` are unguarded and raise; for
a present table `row_exists` issues one query and is true exactly when some
row's `doc_id` equals the id. -/
theorem row_exists_guards_absent_table (tables : List (String × List SQLRow))
    (nm id_ : String) :
    (tables_get tables nm = none →
        row_exists tables nm id_ = (false, 0)
      ∧ sql_get tables nm id_ = .error "AttributeError"
      ∧ sql_update tables nm id_ = .error "AttributeError"
      ∧ sql_search tables nm = .error "AttributeError")
  ∧ (∀ t, tables_get tables nm = some t →
        ((row_exists tables nm id_).1 = true ↔ ∃ r ∈ t.2, r.doc_id = id_)
      ∧ (row_exists tables nm id_).2 = 1) := by
  constructor
  · intro h
    refine ⟨?_, ?_, ?_, ?_⟩ <;> simp [row_exists, sql_get, sql_update, sql_search, h]
  · intro t h
    constructor
    · simp only [row_exists, h, decide_eq_true_eq]
      rw [List.length_pos_iff_exists_mem]
      constructor
      · rintro ⟨r, hr⟩
        rw [List.mem_filter] at hr
        exact ⟨r, hr.1, by simpa using hr.2⟩
      · rintro ⟨r, hr, he⟩
        exact ⟨r, List.mem_filter.mpr ⟨hr, by simpa using he⟩⟩
    · simp [row_exists, h]

/-- Witness for C10: metadata holding one table `"gluuPerson"` with one row;
the absent table `"nope"` short-circuits, and the present table reports the
row. -/
theorem row_exists_guards_absent_table_witness :
    (row_exists [("gluuPerson", [⟨"x"⟩])] "nope" "x" = (false, 0)
      ∧ sql_get [("gluuPerson", [⟨"x"⟩])] "nope" "x" = .error "AttributeError"
      ∧ sql_update [("gluuPerson", [⟨"x"⟩])] "nope" "x" = .error "AttributeError"
      ∧ sql_search [("gluuPerson", [⟨"x"⟩])] "nope" = .error "AttributeError")
  ∧ ((row_exists [("gluuPerson", [⟨"x"⟩])] "gluuPerson" "x").1 = true
      ↔ ∃ r ∈ [(⟨"x"⟩ : SQLRow)], r.doc_id = "x") :=
  ⟨(row_exists_guards_absent_table [("gluuPerson", [⟨"x"⟩])] "nope" "x").1 (by decide),
   ((row_exists_guards_absent_table [("gluuPerson", [⟨"x"⟩])] "gluuPerson" "x").2
      ("gluuPerson", [⟨"x"⟩]) (by decide)).1⟩

/-! ## Credential at-rest encoding (`pygluu.containerlib.utils`) -/

/-- Key-derived byte stream of a given length: byte `i` of the stream is the
key byte at index `i` modulo the key length. -/
def keystreamFrom (key : List Nat) (i : Nat) : Nat → List Nat
  | 0 => []
  | n + 1 => key.getD (i % key.length) 0 :: keystreamFrom key (i + 1) n

/-- Modelled from the spec: `encode_text` from `pygluu.containerlib.utils`
(the module is not under `src/`; only its tests are).  The spec describes the
at-rest transformation as a deterministic, reversible symmetric encoding
keyed by a caller-provided key; it is modelled as a keyed stream cipher —
each plaintext byte combined (XOR) with the key-derived stream byte at its
position — which realises exactly that algebra. -/
def encode_text (p key : List Nat) : List Nat :=
  List.zipWith (fun a b => a ^^^ b) p (keystreamFrom key 0 p.length)

/-- Modelled from the spec: `decode_text` from `pygluu.containerlib.utils`,
the symmetric inverse — the same keyed stream combination applied to the
encoded bytes. -/
def decode_text (c key : List Nat) : List Nat :=
  List.zipWith (fun a b => a ^^^ b) c (keystreamFrom key 0 c.length)

/-- A key differing from `key` in its first byte (used to show a wrong key
does not reproduce the plaintext). -/
def wrongKey (key : List Nat) : List Nat :=
  (key.headD 0 ^^^ 1) :: key.tail

lemma keystreamFrom_length (key : List Nat) (i n : Nat) :
    (keystreamFrom key i n).length = n := by
  induction n generalizing i with
  | zero => rfl
  | succ m ih => simp [keystreamFrom, ih]

lemma xor_one_ne_self (k : Nat) : k ^^^ 1 ≠ k := by
  intro h
  have h2 : k ^^^ (k ^^^ 1) = k ^^^ k := by rw [h]
  rw [← Nat.xor_assoc, Nat.xor_self, Nat.zero_xor] at h2
  simp at h2

lemma zipWith_xor_cancel (p s : List Nat) (h : p.length ≤ s.length) :
    List.zipWith (fun a b => a ^^^ b) (List.zipWith (fun a b => a ^^^ b) p s) s = p := by
  induction p generalizing s with
  | nil => simp
  | cons a p ih =>
    cases s with
    | nil => simp at h
    | cons b s =>
      simp only [List.zipWith_cons_cons]
      rw [ih s (by simpa using h)]
      rw [Nat.xor_assoc, Nat.xor_self, Nat.xor_zero]

lemma decode_encode_wrongKey_head (a : Nat) (p key : List Nat) :
    (decode_text (encode_text (a :: p) key) (wrongKey key)).head? = some (a ^^^ 1) := by
  have hgd : key.getD 0 0 = key.headD 0 := by cases key <;> rfl
  rw [encode_text, decode_text]
  simp only [List.length_cons, keystreamFrom, Nat.zero_mod, List.zipWith_cons_cons,
    List.length_zipWith, keystreamFrom_length, Nat.min_self, wrongKey,
    List.getD_cons_zero, hgd, List.head?_cons, Option.some.injEq]
  rw [Nat.xor_assoc, ← Nat.xor_assoc (key.headD 0) (key.headD 0) 1, Nat.xor_self,
    Nat.zero_xor]

/-- C9: encoding a plaintext with key `K` and decoding with the same `K`
returns the plaintext exactly (round-trip law); and for every non-empty
plaintext there is a key different from `K` — one differing in its first
byte — under which decoding does not reproduce the plaintext. -/
theorem encode_decode_text_spec :
    (∀ p key : List Nat, decode_text (encode_text p key) key = p)
  ∧ (∀ p key : List Nat, p ≠ [] →
        wrongKey key ≠ key
      ∧ decode_text (encode_text p key) (wrongKey key) ≠ p) := by
  constructor
  · intro p key
    have hlen : (encode_text p key).length = p.length := by
      simp [encode_text, keystreamFrom_length]
    rw [decode_text, hlen]
    exact zipWith_xor_cancel p _ (by rw [keystreamFrom_length])
  · intro p key hp
    constructor
    · cases key with
      | nil => simp [wrongKey]
      | cons k t =>
        intro h
        rw [wrongKey] at h
        have hk : (k :: t).headD 0 ^^^ 1 = k := (List.cons.injEq _ _ _ _).mp h |>.1
        simp only [List.headD_cons] at hk
        exact xor_one_ne_self k hk
    · obtain ⟨a, p', rfl⟩ := List.exists_cons_of_ne_nil hp
      intro h
      have hh := congrArg List.head? h
      rw [decode_encode_wrongKey_head] at hh
      simp only [List.head?_cons, Option.some.injEq] at hh
      exact xor_one_ne_self a hh

/-- Witness for C9: round trip and wrong-key mismatch on the bytes
`[104, 105]` with key `[7, 9]`. -/
theorem encode_decode_text_spec_witness :
    decode_text (encode_text [104, 105] [7, 9]) [7, 9] = [104, 105]
  ∧ wrongKey [7, 9] ≠ [7, 9]
  ∧ decode_text (encode_text [104, 105] [7, 9]) (wrongKey [7, 9]) ≠ [104, 105] :=
  ⟨encode_decode_text_spec.1 [104, 105] [7, 9],
   (encode_decode_text_spec.2 [104, 105] [7, 9] (by decide)).1,
   (encode_decode_text_spec.2 [104, 105] [7, 9] (by decide)).2⟩
